import Mathlib

/-!
Verification of the data pipeline of `app.py` (Inside Airbnb dashboard).

The pipeline is shallowly embedded: a pandas DataFrame row becomes a record,
a DataFrame becomes a `List` of records, pandas column operations become
list operations, and the float prices become exact rationals.  A pandas
`NaN` entry is an `Option.none`; a pandas mean over an empty series is
`Option.none` as well.  `app.py` line numbers are cited next to each
definition.
-/

/-- One raw row of `listings.csv` as read by `pd.read_csv` (app.py line 17).
Columns that may be missing (`NaN`) are `Option`s; the raw `price` column is
currency-formatted text.  Numeric columns that the dashboard always treats
as present (reviews, accommodates, availability) are plain values. -/
structure RawRow where
  name : String
  neighbourhood_cleansed : Option String
  room_type : Option String
  price : Option String
  latitude : Option ℚ
  longitude : Option ℚ
  number_of_reviews : ℕ
  accommodates : ℕ
  availability_365 : ℕ
  host_is_superhost : Option String
  review_scores_rating : Option ℚ
  instant_bookable : Option String
deriving DecidableEq

/-- One cleaned listing, i.e. a row surviving `load_data` (app.py lines 19-25):
the five key columns are non-null and the price has been parsed. -/
structure Listing where
  name : String
  neighbourhood_cleansed : String
  room_type : String
  price : ℚ
  latitude : ℚ
  longitude : ℚ
  number_of_reviews : ℕ
  accommodates : ℕ
  availability_365 : ℕ
  host_is_superhost : Option String
  review_scores_rating : Option ℚ
  instant_bookable : Option String
deriving DecidableEq

/-- Digit run to a natural number (helper for decimal parsing). -/
def natFromDigits (cs : List Char) : ℕ :=
  cs.foldl (fun n c => 10 * n + (c.toNat - 48)) 0

/-- The decimal fragment of Python float parsing used by
`astype(float)` (app.py line 22): optional sign, then digits with an
optional fractional part.  Scientific notation and the special values
`inf`/`nan` never occur in price text and are not modelled.  Text that is
not a decimal number (for instance `"N/A"`) yields `none`, which in pandas
surfaces as a raised `ValueError`. -/
def parseFloat (s : String) : Option ℚ :=
  let core := fun (l : List Char) (sgn : ℚ) =>
    let intPart := l.takeWhile Char.isDigit
    let rest := l.dropWhile Char.isDigit
    match rest with
    | [] => if intPart.isEmpty then none else some (sgn * (natFromDigits intPart : ℚ))
    | '.' :: frac =>
        if frac.all Char.isDigit && !(intPart.isEmpty && frac.isEmpty) then
          some (sgn * ((natFromDigits intPart : ℚ) +
            (natFromDigits frac : ℚ) / (10 : ℚ) ^ frac.length))
        else none
    | _ => none
  match s.data with
  | '-' :: rest => core rest (-1)
  | '+' :: rest => core rest 1
  | cs => core cs 1

/-- The price-text cleanup of app.py line 22: the regex replace deletes
every dollar sign and every comma from the price text. -/
def stripPriceChars (s : String) : String :=
  String.mk (s.data.filter (fun c => !(c == '$' || c == ',')))

/-- The completeness test of the `dropna` call of app.py line 19: all five
key columns (price, latitude, longitude, room type, neighborhood) are
non-null. -/
def rowComplete (r : RawRow) : Bool :=
  r.price.isSome && r.latitude.isSome && r.longitude.isSome &&
    r.room_type.isSome && r.neighbourhood_cleansed.isSome

/-- Parse one complete row: extract the five key columns and parse the
stripped price text (app.py line 22).  `none` when a key column is null or
the price text does not parse. -/
def parseCompleteRow (r : RawRow) : Option Listing :=
  match r.price, r.latitude, r.longitude, r.room_type, r.neighbourhood_cleansed with
  | some ps, some la, some lo, some rt, some nb =>
      match parseFloat (stripPriceChars ps) with
      | some p =>
          some ⟨r.name, nb, rt, p, la, lo, r.number_of_reviews, r.accommodates,
            r.availability_365, r.host_is_superhost, r.review_scores_rating,
            r.instant_bookable⟩
      | none => none
  | _, _, _, _, _ => none

/-- Column-wise `astype(float)` (app.py line 22): all rows parse or the whole
conversion raises.  `none` models the raised `ValueError`. -/
def parseAll : List RawRow → Option (List Listing)
  | [] => some []
  | r :: rs =>
      match parseCompleteRow r, parseAll rs with
      | some l, some ls => some (l :: ls)
      | _, _ => none

/-- The body of `load_data` (app.py lines 15-33) on an already-read table: drop rows with
a null key column (line 19), parse every price (line 22), keep prices in the
inclusive band `[10, 1000]` (line 25).  A parse failure raises inside the
`try`, is caught by the generic `except` (lines 31-33), and the function
returns `None`; no partial dataset is produced. -/
def load_data (t : List RawRow) : Option (List Listing) :=
  match parseAll (t.filter rowComplete) with
  | none => none
  | some ls => some (ls.filter (fun l => decide (10 ≤ l.price) && decide (l.price ≤ 1000)))

/-- The sidebar filter state (app.py lines 45-65): `none` is the `All`
sentinel of the two select boxes; the price slider bounds are always
concrete. -/
structure FilterCriteria where
  neighborhood : Option String
  room_type : Option String
  price_min : ℚ
  price_max : ℚ
deriving DecidableEq

/-- The neighborhood predicate of app.py lines 70-71 (`true` on `All`). -/
def neighborhoodPred (c : FilterCriteria) (l : Listing) : Bool :=
  match c.neighborhood with
  | none => true
  | some n => l.neighbourhood_cleansed == n

/-- The room-type predicate of app.py lines 73-74 (`true` on `All`). -/
def roomTypePred (c : FilterCriteria) (l : Listing) : Bool :=
  match c.room_type with
  | none => true
  | some rt => l.room_type == rt

/-- The price predicate of app.py line 76: `between` is inclusive. -/
def priceRangePred (c : FilterCriteria) (l : Listing) : Bool :=
  decide (c.price_min ≤ l.price) && decide (l.price ≤ c.price_max)

/-- The filter pipeline of app.py lines 68-76, applied in source order:
neighborhood (skipped on `All`), then room type (skipped on `All`), then
the always-applied price range. -/
def filtered (df : List Listing) (c : FilterCriteria) : List Listing :=
  let f := df
  let f := match c.neighborhood with
    | none => f
    | some n => f.filter (fun l => l.neighbourhood_cleansed == n)
  let f := match c.room_type with
    | none => f
    | some rt => f.filter (fun l => l.room_type == rt)
  f.filter (fun l => decide (c.price_min ≤ l.price) && decide (l.price ≤ c.price_max))

/-- Round to the nearest integer, halves to the even neighbour — the
rounding of IEEE formatting (Python `:.0f`) and of `numpy.round`. -/
def roundHalfEven (q : ℚ) : ℤ :=
  let f := Int.floor q
  if q - (f : ℚ) < 1/2 then f
  else if (1 : ℚ)/2 < q - (f : ℚ) then f + 1
  else if f % 2 = 0 then f else f + 1

/-- The frame-wide rounding of app.py line 259 on one value: round to two
decimal places, halves to even. -/
def round2 (q : ℚ) : ℚ :=
  (roundHalfEven (q * 100) : ℚ) / 100

/-- Pandas `Series.mean()`: `none` (NaN) on an empty series, otherwise the
exact mean. -/
def pandasMean (xs : List ℚ) : Option ℚ :=
  if xs.length = 0 then none else some (xs.sum / (xs.length : ℚ))

/-- The `Total Listings` metric of app.py line 86: the size of the filtered
view, rendered unconditionally before the empty-view check of line 94. -/
def totalListingsMetric (view : List Listing) : ℕ :=
  view.length

/-- The value inside the `Average Price` metric of app.py line 88: the mean
of the price column of the filtered view, NaN (`none`) on an empty view. -/
def averagePriceValue (view : List Listing) : Option ℚ :=
  pandasMean (view.map (·.price))

/-- The rendered `Average Price` metric text of app.py line 88, a dollar
sign followed by the zero-decimal format of the mean price: Python formats
the NaN of an empty mean as the literal text `nan`, so the metric shows
the text `$nan`; a non-empty mean is rounded half-even to zero decimal
places. -/
def averagePriceMetricText (view : List Listing) : String :=
  match averagePriceValue view with
  | none => "$nan"
  | some q => "$" ++ toString (roundHalfEven q)

/-- The `Average Reviews` metric value of app.py line 90, NaN (`none`) on an
empty view. -/
def averageReviewsValue (view : List Listing) : Option ℚ :=
  pandasMean (view.map (fun l => (l.number_of_reviews : ℚ)))

/-- The map sample `map_data` (app.py line 140): when the filtered view holds more than 500
rows the map shows a random 500-row sample, otherwise the view itself.  The
random draw is a parameter: any 500-row subpermutation of the view. -/
def map_data (view sample : List Listing) : List Listing :=
  if 500 < view.length then sample else view

/-- The `Avg` figure of the map-legend `Price Stats` block (app.py line 185):
the mean price of `map_data`, not of the full filtered view. -/
def mapLegendAvgPrice (view sample : List Listing) : Option ℚ :=
  pandasMean ((map_data view sample).map (·.price))

/-- Mean of a column that is total on cleaned listings (price, reviews,
accommodates, availability): pandas `mean` over a non-null column.  The
groups this is applied to are always non-empty. -/
def meanQ (xs : List ℚ) : ℚ :=
  xs.sum / (xs.length : ℚ)

/-- Pandas `Series.median()`: sort ascending, middle element for odd length,
mean of the two middle elements for even length. -/
def pandasMedian (xs : List ℚ) : ℚ :=
  let s := List.insertionSort (· ≤ ·) xs
  let n := s.length
  if n % 2 = 1 then s.getD (n / 2) 0
  else (s.getD (n / 2 - 1) 0 + s.getD (n / 2) 0) / 2

/-- The rows of one group of the neighborhood `groupby` of app.py
line 251. -/
def neighborhoodGroup (df : List Listing) (n : String) : List Listing :=
  df.filter (fun l => l.neighbourhood_cleansed == n)

/-- The distinct group keys of the neighborhood `groupby`, which pandas
returns sorted ascending. -/
def neighborhoodKeys (df : List Listing) : List String :=
  List.insertionSort (· ≤ ·) ((df.map (·.neighbourhood_cleansed)).dedup)

/-- The flag-share lambda of app.py lines 256 and 258: the count of rows
whose flag equals the truthy marker `t`, divided by the group size, times
100.  A null flag compares unequal to `t` but still counts in the
denominator. -/
def truthyPct (g : List Listing) (flag : Listing → Option String) : ℚ :=
  ((g.countP (fun l => flag l == some "t")) : ℚ) / (g.length : ℚ) * 100

/-- One row of the aggregated frame after the column flattening of app.py
lines 262-265.  `avg_rating` is `none` when no rating in the group is
present (pandas mean of an all-NaN series is NaN). -/
structure NeighborhoodSummary where
  neighbourhood_cleansed : String
  avg_price : ℚ
  median_price : ℚ
  total_listings : ℕ
  avg_reviews : ℚ
  avg_accommodates : ℚ
  avg_availability : ℚ
  superhost_pct : ℚ
  avg_rating : Option ℚ
  instant_bookable_pct : ℚ
deriving DecidableEq

/-- The aggregation row of one neighborhood group (app.py lines 251-259):
means, median, count, the two flag shares, and the rating mean that skips
absent ratings — every figure rounded to two decimals by `.round(2)`
(line 259).  `total_listings` is the count of non-null prices, which on
cleaned listings is the group size. -/
def summarize (df : List Listing) (n : String) : NeighborhoodSummary :=
  let g := neighborhoodGroup df n
  { neighbourhood_cleansed := n
    avg_price := round2 (meanQ (g.map (·.price)))
    median_price := round2 (pandasMedian (g.map (·.price)))
    total_listings := g.length
    avg_reviews := round2 (meanQ (g.map (fun l => (l.number_of_reviews : ℚ))))
    avg_accommodates := round2 (meanQ (g.map (fun l => (l.accommodates : ℚ))))
    avg_availability := round2 (meanQ (g.map (fun l => (l.availability_365 : ℚ))))
    superhost_pct := round2 (truthyPct g (·.host_is_superhost))
    avg_rating := (pandasMean (g.filterMap (·.review_scores_rating))).map round2
    instant_bookable_pct := round2 (truthyPct g (·.instant_bookable)) }

/-- The aggregation `neighborhood_data` (app.py lines 251-268): aggregate the **full**
canonical dataset by neighborhood and keep only the groups with at least 3
listings (line 268). -/
def neighborhood_data (df : List Listing) : List NeighborhoodSummary :=
  ((neighborhoodKeys df).map (summarize df)).filter (fun s => decide (3 ≤ s.total_listings))

/-- The summary records computed inside the Neighborhood Insights tab: the
tabs, and with them the aggregation of lines 251-268, render only when the
filtered view is non-empty (app.py lines 94-98), and the aggregation reads
`df`, never `filtered`. -/
def neighborhoodTabData (df : List Listing) (c : FilterCriteria) :
    Option (List NeighborhoodSummary) :=
  if (filtered df c).length = 0 then none else some (neighborhood_data df)

/-- Descending order on review counts, the sort key of the `nlargest` call
of app.py line 435. -/
def byReviewsDesc : Listing → Listing → Prop :=
  fun a b => b.number_of_reviews ≤ a.number_of_reviews

instance : DecidableRel byReviewsDesc :=
  fun a b => Nat.decLe b.number_of_reviews a.number_of_reviews

instance : IsTotal Listing byReviewsDesc :=
  ⟨fun a b => Nat.le_total b.number_of_reviews a.number_of_reviews⟩

instance : IsTrans Listing byReviewsDesc :=
  ⟨fun _ _ _ h1 h2 => le_trans h2 h1⟩

/-- The top-k query of app.py line 435, `nlargest` over the review-count
column: the first `k` rows of the stable descending sort by review count —
`nlargest` keeps ties in their original frame order (its default keep-first
policy). -/
def top_reviewed (view : List Listing) (k : ℕ) : List Listing :=
  (List.insertionSort byReviewsDesc view).take k

/-! ### Concrete rows used by the example computations -/

/-- A raw row whose every key column is present and whose price text is the
plain `"100"`. -/
def rawBase : RawRow :=
  ⟨"L", some "B", some "Entire home/apt", some "100", some 42, some (-73),
    10, 2, 100, some "f", none, some "f"⟩

/-- The cleaned listing produced from `rawBase`. -/
def listingBase : Listing :=
  ⟨"L", "B", "Entire home/apt", 100, 42, -73, 10, 2, 100, some "f", none, some "f"⟩

/-- A raw row whose price text `"N/A"` does not parse. -/
def rawBadPrice : RawRow :=
  { rawBase with name := "Bad", price := some "N/A" }

/-- A raw row whose price column is null. -/
def rawNullPrice : RawRow :=
  { rawBase with name := "NullP", price := none }

/-- Boundary-price raw rows for the outlier band. -/
def raw999 : RawRow := { rawBase with name := "P9.99", price := some "9.99" }

def raw10 : RawRow := { rawBase with name := "P10", price := some "10.00" }

def raw1000 : RawRow := { rawBase with name := "P1000", price := some "1000.00" }

def raw100001 : RawRow := { rawBase with name := "P1000.01", price := some "1000.01" }

/-- The boundary-price input table of the outlier-band example. -/
def bandTable : List RawRow := [raw999, raw10, raw1000, raw100001]

/-- The parsed listings of `bandTable`, before the outlier band. -/
def band999 : Listing := { listingBase with name := "P9.99", price := 999/100 }

def band10 : Listing := { listingBase with name := "P10", price := 10 }

def band1000 : Listing := { listingBase with name := "P1000", price := 1000 }

def band100001 : Listing := { listingBase with name := "P1000.01", price := 100001/100 }

/-- Filter criteria matching nothing in a dataset priced at 100: the price
slider is set to `[10, 20]`. -/
def narrowCriteria : FilterCriteria := ⟨none, none, 10, 20⟩

/-- Two listings tied at 7 reviews; the one whose name sorts later comes
first in the view. -/
def tieZ : Listing := { listingBase with name := "Zeta", number_of_reviews := 7 }

def tieA : Listing := { listingBase with name := "Alpha", number_of_reviews := 7 }

/-- A view holding the tied pair with the later name first. -/
def tieView : List Listing := [tieZ, tieA]

/-- A cheap listing and an expensive listing for the map-sampling example. -/
def cheapListing : Listing := { listingBase with name := "Cheap", price := 10 }

def expListing : Listing := { listingBase with name := "Exp", price := 1000 }

/-- A 501-row filtered view: 500 cheap rows and one expensive row. -/
def bigView : List Listing := List.replicate 500 cheapListing ++ [expListing]

/-- The 500-row sample that happens to draw exactly the cheap rows. -/
def cheapSample : List Listing := List.replicate 500 cheapListing

/-- Three listings in one neighborhood `"B"`: one superhost of three, two
ratings of three present, two instant-bookable of three. -/
def aggB1 : Listing :=
  { listingBase with
      name := "B1"
      host_is_superhost := some "t"
      review_scores_rating := some 4
      instant_bookable := some "t" }

def aggB2 : Listing :=
  { listingBase with
      name := "B2"
      host_is_superhost := some "f"
      review_scores_rating := some 5
      instant_bookable := some "t" }

def aggB3 : Listing :=
  { listingBase with
      name := "B3"
      host_is_superhost := none
      review_scores_rating := none
      instant_bookable := some "f" }

/-- The one-neighborhood aggregation example dataset. -/
def aggDf : List Listing := [aggB1, aggB2, aggB3]

/-- The aggregation row of `aggDf`: the superhost share `100/3` and the
instant-bookable share `200/3` land on `33.33` and `66.67` after
`.round(2)`; the rating mean ignores the absent third rating. -/
def aggSummary : NeighborhoodSummary :=
  ⟨"B", 100, 100, 3, 10, 2, 100, 3333/100, some (45/10), 6667/100⟩

/-- Unrestricted criteria over `aggDf`. -/
def allCriteria : FilterCriteria := ⟨none, none, 10, 1000⟩

/-- Neighborhood-restricted criteria over `aggDf` with a narrower slider. -/
def scopedCriteria : FilterCriteria := ⟨some "B", none, 50, 300⟩

/-! ### Loader lemmas -/

/-- A row whose price text does not parse makes `parseCompleteRow` fail. -/
theorem parseCompleteRow_none_of_parse_fail (r : RawRow) (ps : String)
    (hps : r.price = some ps) (hf : parseFloat (stripPriceChars ps) = none) :
    parseCompleteRow r = none := by
  obtain ⟨nm, nb, rt, pr, la, lo, nr, ac, av, hs, rs, ib⟩ := r
  simp only at hps
  subst hps
  cases la <;> cases lo <;> cases rt <;> cases nb <;> simp [parseCompleteRow, hf]

/-- One failing row poisons the whole column conversion. -/
theorem parseAll_eq_none_of_mem (l : List RawRow) (r : RawRow)
    (hmem : r ∈ l) (hr : parseCompleteRow r = none) : parseAll l = none := by
  induction l with
  | nil => cases hmem
  | cons a as ih =>
      rcases List.mem_cons.mp hmem with h | h
      · subst h
        cases hpa : parseAll as <;> simp [parseAll, hr, hpa]
      · cases hpa : parseCompleteRow a <;> simp [parseAll, ih h, hpa]

/-- Text `"N/A"` survives the dollar-and-comma stripping unchanged and then
fails to parse. -/
theorem parse_na_fails : parseFloat (stripPriceChars "N/A") = none := by decide

/-! ### C6 — completeness drop happens first -/

/-- C6: a row with a null price, latitude, longitude, room type or
neighborhood is dropped by `dropna` before price parsing: prepending such a
row to any table leaves the whole load — including the all-or-nothing price
conversion — unchanged, so the row is absent from every loaded dataset and
its (possibly null) price text is never parsed. -/
theorem incomplete_row_dropped_before_parsing (r : RawRow) (t : List RawRow)
    (hc : rowComplete r = false) : load_data (r :: t) = load_data t := by
  simp [load_data, List.filter_cons, hc]

/-- Witness for C6: dropping the null-price row of the two-row table gives
exactly the one-row load. -/
theorem incomplete_row_dropped_before_parsing_witness :
    load_data [rawNullPrice, rawBase] = load_data [rawBase] :=
  incomplete_row_dropped_before_parsing rawNullPrice [rawBase] (by decide)

/-! ### C1 — a price parse failure aborts the whole load -/

/-- C1 (amended): when the stripped price text of any complete row fails to
parse, `astype(float)` raises, the generic `except` catches it, and
`load_data` returns `None`: the failure never escapes as an unhandled
error, but the whole load is aborted instead of just the failing row. -/
theorem parse_failure_aborts_load (t : List RawRow) (r : RawRow) (ps : String)
    (hmem : r ∈ t) (hc : rowComplete r = true) (hps : r.price = some ps)
    (hf : parseFloat (stripPriceChars ps) = none) : load_data t = none := by
  have hr : parseCompleteRow r = none := parseCompleteRow_none_of_parse_fail r ps hps hf
  have hmem' : r ∈ t.filter rowComplete := List.mem_filter.mpr ⟨hmem, hc⟩
  simp [load_data, parseAll_eq_none_of_mem _ r hmem' hr]

/-- Witness for C1 (amended): a table holding one good row and one `"N/A"`
row loads to `None`. -/
theorem parse_failure_aborts_load_witness :
    load_data [rawBase, rawBadPrice] = none :=
  parse_failure_aborts_load [rawBase, rawBadPrice] rawBadPrice "N/A"
    (by simp) (by decide) rfl parse_na_fails

/-- Counterexample to C1 as stated: with the `"N/A"` row present the load
returns `None` — the good row is not returned — although the same good row
alone loads fine.  The claim would require
`load_data [rawBase, rawBadPrice] = some [listingBase]`. -/
theorem parse_failure_not_row_local :
    load_data [rawBase, rawBadPrice] = none ∧
      load_data [rawBase] = some [listingBase] ∧
      load_data [rawBase, rawBadPrice] ≠ some [listingBase] := by
  have hnone : load_data [rawBase, rawBadPrice] = none := by
    have hr : parseCompleteRow rawBadPrice = none :=
      parseCompleteRow_none_of_parse_fail rawBadPrice "N/A" rfl parse_na_fails
    have hmem' : rawBadPrice ∈ List.filter rowComplete [rawBase, rawBadPrice] := by
      refine List.mem_filter.mpr ⟨by simp, by decide⟩
    simp [load_data, parseAll_eq_none_of_mem _ rawBadPrice hmem' hr]
  refine ⟨hnone, ?_, ?_⟩
  · have hp : parseCompleteRow rawBase = some listingBase := by
      simp [parseCompleteRow, rawBase, parseFloat, stripPriceChars, natFromDigits, listingBase]
    have hfil : List.filter rowComplete [rawBase] = [rawBase] := by decide
    simp [load_data, hfil, parseAll, hp, listingBase]
    norm_num
  · rw [hnone]
    exact fun h => Option.noConfusion h

/-! ### C5 — the inclusive outlier band -/

/-- C5: whenever the column conversion succeeds, the loaded dataset is
exactly the parsed rows whose price lies in the inclusive band
`[10, 1000]` (app.py line 25 uses `>=` and `<=`). -/
theorem outlier_band_inclusive (t : List RawRow) (ls : List Listing)
    (h : parseAll (t.filter rowComplete) = some ls) :
    load_data t =
        some (ls.filter (fun l => decide (10 ≤ l.price) && decide (l.price ≤ 1000)))
      ∧ ∀ l : Listing,
          l ∈ ls.filter (fun l => decide (10 ≤ l.price) && decide (l.price ≤ 1000)) ↔
            l ∈ ls ∧ 10 ≤ l.price ∧ l.price ≤ 1000 := by
  constructor
  · simp [load_data, h]
  · intro l
    simp [List.mem_filter, and_assoc]

/-- Parsed form of the four boundary rows. -/
theorem bandTable_parses :
    parseAll (bandTable.filter rowComplete) =
      some [band999, band10, band1000, band100001] := by
  have h999 : parseCompleteRow raw999 = some band999 := by
    simp [parseCompleteRow, raw999, rawBase, parseFloat, stripPriceChars, natFromDigits,
      band999, listingBase]
    norm_num
  have h10 : parseCompleteRow raw10 = some band10 := by
    simp [parseCompleteRow, raw10, rawBase, parseFloat, stripPriceChars, natFromDigits,
      band10, listingBase]
  have h1000 : parseCompleteRow raw1000 = some band1000 := by
    simp [parseCompleteRow, raw1000, rawBase, parseFloat, stripPriceChars, natFromDigits,
      band1000, listingBase]
  have h100001 : parseCompleteRow raw100001 = some band100001 := by
    simp [parseCompleteRow, raw100001, rawBase, parseFloat, stripPriceChars, natFromDigits,
      band100001, listingBase]
    norm_num
  have hfil : bandTable.filter rowComplete = bandTable := by decide
  rw [hfil]
  simp [bandTable, parseAll, h999, h10, h1000, h100001]

/-- Witness for C5: of the boundary prices 9.99, 10.00, 1000.00, 1000.01
exactly the two inclusive endpoints are retained. -/
theorem outlier_band_inclusive_witness :
    load_data bandTable = some [band10, band1000] := by
  rw [(outlier_band_inclusive bandTable _ bandTable_parses).1]
  norm_num [List.filter, band999, band10, band1000, band100001, listingBase]

/-! ### C2 — the empty-view means render as NaN, not as a no-data marker -/

/-- C2 (code behaviour at the failing input): the metrics of app.py lines
86-92 render before the empty-view check of line 94, so filtering a dataset
priced at 100 down to the empty view (slider `[10, 20]`) shows the
`Average Price` metric as the literal text `$nan`, and the
`Average Reviews` value is likewise NaN — not an explicit no-data marker. -/
theorem empty_view_metric_is_nan :
    filtered [listingBase] narrowCriteria = [] ∧
      averagePriceMetricText (filtered [listingBase] narrowCriteria) = "$nan" ∧
      averageReviewsValue (filtered [listingBase] narrowCriteria) = none := by
  have hf : filtered [listingBase] narrowCriteria = [] := by
    simp [filtered, narrowCriteria, List.filter, listingBase]
    norm_num
  refine ⟨hf, ?_, ?_⟩ <;>
    simp [hf, averagePriceMetricText, averagePriceValue, averageReviewsValue, pandasMean]

/-! ### C9 — the three filter predicates commute -/

/-- Three chained filters merge into one conjunctive filter. -/
theorem filter_chain (l : List Listing) (p q r : Listing → Bool) :
    ((l.filter p).filter q).filter r = l.filter (fun x => p x && (q x && r x)) := by
  rw [List.filter_filter, List.filter_filter]
  exact List.filter_congr (fun x _ => by cases p x <;> cases q x <;> cases r x <;> rfl)

/-- The skip-on-`All` pipeline of the source equals the three-filter
chain. -/
theorem filtered_eq_chain (df : List Listing) (c : FilterCriteria) :
    filtered df c =
      ((df.filter (neighborhoodPred c)).filter (roomTypePred c)).filter (priceRangePred c) := by
  rcases hn : c.neighborhood with _ | n <;> rcases hr : c.room_type with _ | rt <;>
    (simp [filtered, neighborhoodPred, roomTypePred, priceRangePred, hn, hr]; try rfl)

/-- C9: the three conjunctive filter predicates (neighborhood, room type,
inclusive price range) commute — the pipeline of app.py lines 68-76, every
one of the six application orders, and the single combined predicate all
produce the same filtered list. -/
theorem filter_predicates_commute (df : List Listing) (c : FilterCriteria) :
    (filtered df c =
        df.filter (fun l => neighborhoodPred c l && (roomTypePred c l && priceRangePred c l)))
      ∧ ((df.filter (neighborhoodPred c)).filter (roomTypePred c)).filter (priceRangePred c) =
          df.filter (fun l => neighborhoodPred c l && (roomTypePred c l && priceRangePred c l))
      ∧ ((df.filter (neighborhoodPred c)).filter (priceRangePred c)).filter (roomTypePred c) =
          df.filter (fun l => neighborhoodPred c l && (roomTypePred c l && priceRangePred c l))
      ∧ ((df.filter (roomTypePred c)).filter (neighborhoodPred c)).filter (priceRangePred c) =
          df.filter (fun l => neighborhoodPred c l && (roomTypePred c l && priceRangePred c l))
      ∧ ((df.filter (roomTypePred c)).filter (priceRangePred c)).filter (neighborhoodPred c) =
          df.filter (fun l => neighborhoodPred c l && (roomTypePred c l && priceRangePred c l))
      ∧ ((df.filter (priceRangePred c)).filter (neighborhoodPred c)).filter (roomTypePred c) =
          df.filter (fun l => neighborhoodPred c l && (roomTypePred c l && priceRangePred c l))
      ∧ ((df.filter (priceRangePred c)).filter (roomTypePred c)).filter (neighborhoodPred c) =
          df.filter (fun l => neighborhoodPred c l && (roomTypePred c l && priceRangePred c l)) := by
  have hc : ∀ p q r : Listing → Bool,
      ((df.filter p).filter q).filter r =
        df.filter (fun x => p x && (q x && r x)) := fun p q r => filter_chain df p q r
  refine ⟨?_, ?_, ?_, ?_, ?_, ?_, ?_⟩
  · rw [filtered_eq_chain df c, hc]
  all_goals first
    | (rw [hc]
       exact List.filter_congr (fun x _ => by
        cases neighborhoodPred c x <;> cases roomTypePred c x <;> cases priceRangePred c x <;>
          rfl))
    | rw [hc]

/-! ### C10 — Neighborhood Insights never depend on the filter criteria -/

/-- C10: whenever the Neighborhood Insights tab renders (the filtered view
is non-empty), the sequence of summary records it computes is the same for
every filter criteria over the same dataset — the aggregation of app.py
lines 251-268 reads `df`, never `filtered`. -/
theorem insights_independent_of_criteria (df : List Listing) (c1 c2 : FilterCriteria)
    (l1 l2 : List NeighborhoodSummary)
    (h1 : neighborhoodTabData df c1 = some l1)
    (h2 : neighborhoodTabData df c2 = some l2) : l1 = l2 := by
  by_cases e1 : (filtered df c1).length = 0
  · simp [neighborhoodTabData, e1] at h1
  · by_cases e2 : (filtered df c2).length = 0
    · simp [neighborhoodTabData, e2] at h2
    · simp only [neighborhoodTabData, if_neg e1, if_neg e2, Option.some.injEq] at h1 h2
      exact h1.symm.trans h2

/-- The unrestricted criteria keep all three example listings. -/
theorem filtered_aggDf_all : filtered aggDf allCriteria = aggDf := by
  simp [filtered, allCriteria, aggDf, List.filter, aggB1, aggB2, aggB3, listingBase]
  norm_num

/-- The `"B"`-scoped criteria with slider `[50, 300]` also keep all three. -/
theorem filtered_aggDf_scoped : filtered aggDf scopedCriteria = aggDf := by
  simp [filtered, scopedCriteria, aggDf, List.filter, aggB1, aggB2, aggB3, listingBase]
  norm_num

/-- Witness for C10: over `aggDf` the insights records under the
unrestricted criteria and under the `"B"`-scoped criteria coincide. -/
theorem insights_independent_witness :
    neighborhoodTabData aggDf allCriteria = neighborhoodTabData aggDf scopedCriteria := by
  have h1 : neighborhoodTabData aggDf allCriteria = some (neighborhood_data aggDf) := by
    have hlen : (filtered aggDf allCriteria).length = 3 := by rw [filtered_aggDf_all]; rfl
    simp [neighborhoodTabData, hlen]
  have h2 : neighborhoodTabData aggDf scopedCriteria = some (neighborhood_data aggDf) := by
    have hlen : (filtered aggDf scopedCriteria).length = 3 := by rw [filtered_aggDf_scoped]; rfl
    simp [neighborhoodTabData, hlen]
  have h3 : neighborhood_data aggDf = neighborhood_data aggDf :=
    insights_independent_of_criteria aggDf allCriteria scopedCriteria _ _ h1 h2
  exact h1.trans ((congrArg some h3).trans h2.symm)

/-! ### C3 — top-K ranking: descending metric, ties in frame order -/

/-- Counterexample to C3 as stated: two listings tied at 7 reviews, with the
name `"Zeta"` row first in the view.  `nlargest` keeps ties in frame order,
so `"Zeta"` is returned first although `"Alpha"` precedes it in ascending
name order — the tie is not broken by ascending name, and the output depends
on the input sequence, not only on the input set. -/
theorem top_reviewed_tie_not_by_name :
    top_reviewed tieView 2 = [tieZ, tieA]
      ∧ tieZ.number_of_reviews = tieA.number_of_reviews
      ∧ tieA.name < tieZ.name
      ∧ top_reviewed tieView 2 ≠ [tieA, tieZ] := by
  have heval : top_reviewed tieView 2 = [tieZ, tieA] := by
    simp [top_reviewed, tieView, List.insertionSort, List.orderedInsert, byReviewsDesc,
      tieZ, tieA, listingBase]
  refine ⟨heval, rfl, ?_, ?_⟩
  · show ("Alpha" : String) < "Zeta"
    simp [String.lt_iff_toList_lt]
    decide
  · rw [heval]
    intro h
    have : tieZ = tieA := (List.cons.injEq _ _ _ _ ▸ h).1
    exact absurd (congrArg Listing.name this) (by decide)

/-- C3 (amended): `top_reviewed` returns rows sorted descending by review
count, drawn from the view, and ties keep their original order in the view
(`nlargest` keeps first occurrences) — so the output is determined by the
input sequence rather than by the input set, with no name tie-break. -/
theorem top_reviewed_sorted_stable (v : List Listing) (k : ℕ) :
    List.Sorted byReviewsDesc (top_reviewed v k)
      ∧ (∀ x, x ∈ top_reviewed v k → x ∈ v)
      ∧ (∀ a b, [a, b].Sublist v → byReviewsDesc a b →
          [a, b].Sublist (top_reviewed v v.length)) := by
  have hlen : (List.insertionSort byReviewsDesc v).length = v.length :=
    (List.perm_insertionSort byReviewsDesc v).length_eq
  have hfull : top_reviewed v v.length = List.insertionSort byReviewsDesc v := by
    rw [top_reviewed, ← hlen, List.take_length]
  refine ⟨?_, ?_, ?_⟩
  · exact List.Pairwise.sublist (List.take_sublist k _)
      (List.sorted_insertionSort byReviewsDesc v)
  · intro x hx
    exact (List.mem_insertionSort byReviewsDesc).mp ((List.take_sublist k _).subset hx)
  · intro a b hab hr
    rw [hfull]
    exact List.pair_sublist_insertionSort hr hab

/-- Witness for C3 (amended) on the tied pair: the 2-row result is sorted,
its rows come from the view, and the tied pair keeps its frame order. -/
theorem top_reviewed_sorted_stable_witness :
    List.Sorted byReviewsDesc (top_reviewed tieView 2)
      ∧ tieA ∈ tieView
      ∧ [tieZ, tieA].Sublist (top_reviewed tieView tieView.length) := by
  refine ⟨(top_reviewed_sorted_stable tieView 2).1, by simp [tieView], ?_⟩
  exact (top_reviewed_sorted_stable tieView tieView.length).2.2 tieZ tieA
    (List.Sublist.refl _) (Nat.le.refl)

/-! ### C4 — the 500-row map sample and what it feeds -/

/-- The example view has 501 rows. -/
theorem bigView_length : bigView.length = 501 := by
  rw [bigView]
  simp only [List.length_append, List.length_replicate, List.length_cons, List.length_nil]

/-- The example sample has 500 rows. -/
theorem cheapSample_length : cheapSample.length = 500 := by
  rw [cheapSample]
  simp only [List.length_replicate]

/-- The example sample is a 500-row draw (without replacement) from the
view. -/
theorem cheapSample_subperm : cheapSample.Subperm bigView := by
  rw [cheapSample, bigView]
  exact (List.sublist_append_left _ _).subperm

/-- Mean price over the full 501-row view. -/
theorem bigView_mean : averagePriceValue bigView = some (6000 / 501) := by
  rw [averagePriceValue, bigView]
  simp only [List.map_append, List.map_replicate, List.map_cons, List.map_nil, pandasMean,
    List.length_append, List.length_replicate, List.sum_append, List.sum_replicate,
    List.sum_cons, List.sum_nil, cheapListing, expListing, listingBase]
  norm_num

/-- Mean price over the sample as shown in the map legend. -/
theorem bigView_legend_mean : mapLegendAvgPrice bigView cheapSample = some 10 := by
  have hd : map_data bigView cheapSample = cheapSample := by
    simp [map_data, bigView_length]
  rw [mapLegendAvgPrice, hd, cheapSample]
  simp only [List.map_replicate, pandasMean, List.length_replicate, List.sum_replicate,
    cheapListing, listingBase]
  norm_num

/-- Counterexample to C4 as stated: on a 501-row view whose random draw
happens to pick the 500 cheap rows, the map-legend `Avg` price stat
(app.py line 185) is the sample mean 10, while the mean over the full view
is 6000/501 — a displayed statistic **is** computed over the sample. -/
theorem map_stats_use_sample :
    500 < bigView.length
      ∧ cheapSample.length = 500
      ∧ cheapSample.Subperm bigView
      ∧ mapLegendAvgPrice bigView cheapSample = some 10
      ∧ averagePriceValue bigView = some (6000 / 501)
      ∧ mapLegendAvgPrice bigView cheapSample ≠ averagePriceValue bigView := by
  refine ⟨by rw [bigView_length]; norm_num, cheapSample_length, cheapSample_subperm,
    bigView_legend_mean, bigView_mean, ?_⟩
  rw [bigView_legend_mean, bigView_mean]
  intro h
  have := Option.some.inj h
  norm_num at this

/-- C4 (amended): for every view with more than 500 rows and every 500-row
draw from it, the top-line metrics of app.py lines 86-92 are computed over
the full view (the count is the size of the view and the average price is the
full-view mean), while `map_data` is the sample and the map-legend price
stats of lines 183-185 are computed over that sample. -/
theorem sampling_scope (v s : List Listing) (h1 : 500 < v.length)
    (_h2 : s.length = 500) (_h3 : s.Subperm v) :
    totalListingsMetric v = v.length
      ∧ averagePriceValue v = pandasMean (v.map (·.price))
      ∧ map_data v s = s
      ∧ mapLegendAvgPrice v s = pandasMean (s.map (·.price)) := by
  have hd : map_data v s = s := by
    simp only [map_data]
    rw [if_pos h1]
  exact ⟨rfl, rfl, hd, by rw [mapLegendAvgPrice, hd]⟩

/-- Witness for C4 (amended), at the 501-row view and its cheap draw. -/
theorem sampling_scope_witness :
    totalListingsMetric bigView = bigView.length
      ∧ averagePriceValue bigView = pandasMean (bigView.map (·.price))
      ∧ map_data bigView cheapSample = cheapSample
      ∧ mapLegendAvgPrice bigView cheapSample = pandasMean (cheapSample.map (·.price)) :=
  sampling_scope bigView cheapSample (by rw [bigView_length]; norm_num)
    cheapSample_length cheapSample_subperm

/-! ### C7 — the minimum group size of the aggregation -/

/-- C7: a neighborhood appears in the aggregation output exactly when its
group holds at least 3 listings (the `total_listings >= 3` filter of
app.py line 268). -/
theorem aggregation_min_group_size (df : List Listing) (n : String) :
    (∃ s ∈ neighborhood_data df, s.neighbourhood_cleansed = n) ↔
      3 ≤ (neighborhoodGroup df n).length := by
  constructor
  · rintro ⟨s, hs, hn⟩
    obtain ⟨hmap, hpred⟩ := List.mem_filter.mp hs
    obtain ⟨m, _, rfl⟩ := List.mem_map.mp hmap
    have hm : m = n := hn
    subst hm
    exact of_decide_eq_true hpred
  · intro h
    have hne : neighborhoodGroup df n ≠ [] :=
      List.length_pos.mp (lt_of_lt_of_le (by norm_num) h)
    obtain ⟨l, hl⟩ := List.exists_mem_of_ne_nil _ hne
    obtain ⟨hldf, hbeq⟩ := List.mem_filter.mp hl
    have hln : l.neighbourhood_cleansed = n := by simpa using hbeq
    have hkey : n ∈ neighborhoodKeys df := by
      rw [neighborhoodKeys, List.mem_insertionSort, List.mem_dedup]
      exact hln ▸ List.mem_map_of_mem (·.neighbourhood_cleansed) hldf
    refine ⟨summarize df n, List.mem_filter.mpr ⟨List.mem_map_of_mem _ hkey, ?_⟩, rfl⟩
    exact decide_eq_true h

/-! ### Rounding evaluation lemmas -/

/-- Evaluation of `roundHalfEven` below the halfway point: round down. -/
theorem roundHalfEven_eq_down (q : ℚ) (n : ℤ) (h1 : (n : ℚ) ≤ q)
    (h2 : q < (n : ℚ) + 1/2) : roundHalfEven q = n := by
  have hf : Int.floor q = n := Int.floor_eq_iff.mpr ⟨h1, by linarith⟩
  simp only [roundHalfEven, hf]
  rw [if_pos (by linarith)]

/-- Evaluation of `roundHalfEven` above the halfway point: round up. -/
theorem roundHalfEven_eq_up (q : ℚ) (n : ℤ) (h1 : (n : ℚ) + 1/2 < q)
    (h2 : q < (n : ℚ) + 1) : roundHalfEven q = n + 1 := by
  have hf : Int.floor q = n := Int.floor_eq_iff.mpr ⟨by linarith, by linarith⟩
  simp only [roundHalfEven, hf]
  rw [if_neg (by linarith), if_pos (by linarith)]

/-! ### C8 — the aggregation formulas (with `.round(2)`) -/

/-- The `"B"` group of the example dataset is the whole dataset. -/
theorem group_aggDf : neighborhoodGroup aggDf "B" = aggDf := by
  simp [neighborhoodGroup, aggDf, List.filter, aggB1, aggB2, aggB3, listingBase]

/-- The group keys of the example dataset. -/
theorem keys_aggDf : neighborhoodKeys aggDf = ["B"] := by decide

/-- The aggregation row of the example dataset, field by field. -/
theorem summarize_aggDf : summarize aggDf "B" = aggSummary := by
  rw [summarize, group_aggDf, aggSummary]
  have hprices : aggDf.map (·.price) = [100, 100, 100] := by
    simp [aggDf, aggB1, aggB2, aggB3, listingBase]
  have hmean : meanQ [(100 : ℚ), 100, 100] = 100 := by
    rw [meanQ]
    norm_num
  have hmedian : pandasMedian [(100 : ℚ), 100, 100] = 100 := by
    rw [pandasMedian]
    norm_num [List.insertionSort, List.orderedInsert]
  have hr100 : round2 100 = 100 := by
    rw [round2, roundHalfEven_eq_down (100 * 100) 10000 (by norm_num) (by norm_num)]
    norm_num
  simp only [NeighborhoodSummary.mk.injEq]
  refine ⟨trivial, ?_, ?_, by decide, ?_, ?_, ?_, ?_, ?_, ?_⟩
  · rw [hprices, hmean, hr100]
  · rw [hprices, hmedian, hr100]
  · have : aggDf.map (fun l => ((l.number_of_reviews : ℚ))) = [10, 10, 10] := by
      simp [aggDf, aggB1, aggB2, aggB3, listingBase]
    rw [this, show meanQ [(10 : ℚ), 10, 10] = 10 by rw [meanQ]; norm_num,
      round2, roundHalfEven_eq_down (10 * 100) 1000 (by norm_num) (by norm_num)]
    norm_num
  · have : aggDf.map (fun l => ((l.accommodates : ℚ))) = [2, 2, 2] := by
      simp [aggDf, aggB1, aggB2, aggB3, listingBase]
    rw [this, show meanQ [(2 : ℚ), 2, 2] = 2 by rw [meanQ]; norm_num,
      round2, roundHalfEven_eq_down (2 * 100) 200 (by norm_num) (by norm_num)]
    norm_num
  · have : aggDf.map (fun l => ((l.availability_365 : ℚ))) = [100, 100, 100] := by
      simp [aggDf, aggB1, aggB2, aggB3, listingBase]
    rw [this, hmean, hr100]
  · have hc : aggDf.countP (fun l => l.host_is_superhost == some "t") = 1 := by decide
    rw [truthyPct, hc, show (aggDf.length : ℚ) = 3 by decide]
    rw [show ((1 : ℕ) : ℚ) / 3 * 100 = 100/3 by norm_num,
      round2, roundHalfEven_eq_down (100/3 * 100) 3333 (by norm_num) (by norm_num)]
    norm_num
  · have hfm : aggDf.filterMap (·.review_scores_rating) = [4, 5] := by
      simp [aggDf, aggB1, aggB2, aggB3, listingBase, List.filterMap]
    rw [hfm, pandasMean]
    norm_num
    rw [round2, roundHalfEven_eq_down (9/2 * 100) 450 (by norm_num) (by norm_num)]
    norm_num
  · have hc : aggDf.countP (fun l => l.instant_bookable == some "t") = 2 := by decide
    rw [truthyPct, hc, show (aggDf.length : ℚ) = 3 by decide]
    rw [show ((2 : ℕ) : ℚ) / 3 * 100 = 200/3 by norm_num,
      round2, roundHalfEven_eq_up (200/3 * 100) 6666 (by norm_num) (by norm_num)]
    norm_num

/-- The aggregation output of the example dataset is the single `"B"` row. -/
theorem neighborhood_data_aggDf : neighborhood_data aggDf = [aggSummary] := by
  rw [neighborhood_data, keys_aggDf]
  simp [summarize_aggDf, aggSummary]

/-- Counterexample to C8 as stated: in the example group of 3 listings with
1 superhost, the reported superhost percentage is the **rounded** 33.33,
not the exact `(1/3) × 100 = 100/3` the claim asserts — `.round(2)`
(app.py line 259) intervenes. -/
theorem superhost_pct_is_rounded :
    neighborhood_data aggDf = [aggSummary]
      ∧ aggDf.countP (fun l => l.host_is_superhost == some "t") = 1
      ∧ (neighborhoodGroup aggDf "B").length = 3
      ∧ aggSummary.superhost_pct ≠ ((1 : ℚ) / 3) * 100 := by
  refine ⟨neighborhood_data_aggDf, by decide, by rw [group_aggDf]; rfl, ?_⟩
  show (3333 : ℚ) / 100 ≠ (1 : ℚ) / 3 * 100
  norm_num

/-- C8 (amended): every record of the aggregation output carries the
superhost percentage `round2((count of t flags / group size) * 100)`, the
instant-bookable percentage by the same formula on the other flag, and the
mean rating over only the present ratings (absent ratings in neither the
numerator nor the denominator), also rounded — each figure exactly as the
claim states except for the final rounding to two decimals. -/
theorem aggregation_formulas (df : List Listing) (s : NeighborhoodSummary)
    (hs : s ∈ neighborhood_data df) :
    s.superhost_pct =
        round2 (truthyPct (neighborhoodGroup df s.neighbourhood_cleansed)
          (·.host_is_superhost))
      ∧ s.instant_bookable_pct =
        round2 (truthyPct (neighborhoodGroup df s.neighbourhood_cleansed)
          (·.instant_bookable))
      ∧ s.avg_rating =
        (pandasMean ((neighborhoodGroup df s.neighbourhood_cleansed).filterMap
          (·.review_scores_rating))).map round2 := by
  obtain ⟨hmap, -⟩ := List.mem_filter.mp hs
  obtain ⟨m, -, rfl⟩ := List.mem_map.mp hmap
  exact ⟨rfl, rfl, rfl⟩

/-- Witness for C8 (amended) on the example dataset: the `"B"` row is in
the output and its superhost percentage is the rounded flag share. -/
theorem aggregation_formulas_witness :
    aggSummary ∈ neighborhood_data aggDf
      ∧ aggSummary.superhost_pct =
        round2 (truthyPct (neighborhoodGroup aggDf aggSummary.neighbourhood_cleansed)
          (·.host_is_superhost)) := by
  have hm : aggSummary ∈ neighborhood_data aggDf := by
    rw [neighborhood_data_aggDf]
    exact List.mem_singleton.mpr rfl
  exact ⟨hm, (aggregation_formulas aggDf aggSummary hm).1⟩
